import Mathlib

/-!
Shallow embedding of the warehouse layout engine: `backend/warehouse_calc.py`
(class `WarehouseCalculator`), the API endpoints of `backend/main.py`, and the
helper `to_cm` of `frontend/warehouse_visualizer.py`.

Python floats are modelled as exact rationals; Python exceptions
(`ValueError` raised by `convert_to_centimeters`, and `ZeroDivisionError`
from dividing by a zero count) are modelled with `Except CalcErr`.
Counts (`num_blocks`, `num_rows`, `num_racks`, `num_floors`) are modelled as
naturals; pallet position indices are modelled as integers, matching the
untyped comparisons in the source.
-/

set_option maxRecDepth 1000000

namespace Warehouse

/-- Exceptions the engine can raise: `ValueError` (carrying the offending
unit string, from `convert_to_centimeters`) and `ZeroDivisionError`. -/
inductive CalcErr where
  | valueError (unit : String)
  | zeroDivision
deriving Repr, DecidableEq

deriving instance DecidableEq for Except

/-- The `conversion_factors` table of `WarehouseCalculator.__init__`
(warehouse_calc.py lines 7-15).  Note: there is no entry for `mm`. -/
def conversion_factors : String → Option ℚ
  | "cm" => some 1
  | "m" => some 100
  | "km" => some 100000
  | "in" => some (254/100)
  | "ft" => some (3048/100)
  | "yd" => some (9144/100)
  | "mi" => some (1609344/10)
  | _ => none

/-- `WarehouseCalculator.convert_to_centimeters` (warehouse_calc.py lines
17-20): raises `ValueError` when the unit is not in the table. -/
def convert_to_centimeters (value : ℚ) (unit : String) : Except CalcErr ℚ :=
  match conversion_factors unit with
  | some f => .ok (value * f)
  | none => .error (.valueError unit)

/-- Helper `to_cm` of `frontend/warehouse_visualizer.py` (lines 21-36):
falls back to returning the value unchanged for an unknown unit.  (The
None/non-numeric coercion to 0 is outside this numeric model.) -/
def to_cm (val : ℚ) (unit : String) : ℚ :=
  let u := unit.toLower
  if u = "mm" then val / 10
  else if u = "cm" then val
  else if u = "m" then val * 100
  else if u = "ft" then val * (3048/100)
  else if u = "in" then val * (254/100)
  else val

structure Pos3 where
  x : ℚ
  y : ℚ
  z : ℚ
deriving Repr, DecidableEq

structure Dims3 where
  width : ℚ
  length : ℚ
  height : ℚ
deriving Repr, DecidableEq

/-- Pallet `position` (1-based floor/row/col indices), as in main.py's
`Position` model; integers, as pydantic allows any int. -/
structure PalletPosition where
  floor : Int
  row : Int
  col : Int
deriving Repr, DecidableEq

structure PalletConfig where
  type : String
  weight : ℚ
  length : ℚ
  width : ℚ
  height : ℚ
  unit : String
  color : String
  position : PalletPosition
deriving Repr, DecidableEq

structure RackConfig where
  num_floors : Nat
  num_rows : Nat
  num_racks : Nat
  gap_between_racks : ℚ
  custom_gaps : List ℚ
  gap_unit : String
  gap_front : ℚ
  gap_back : ℚ
  gap_left : ℚ
  gap_right : ℚ
  wall_gap_unit : String
deriving Repr, DecidableEq

structure BlockConfig where
  block_index : Nat
  rack_config : RackConfig
  pallet_configs : List PalletConfig
deriving Repr, DecidableEq

structure WarehouseDims where
  length : ℚ
  width : ℚ
  height : ℚ
  unit : String
deriving Repr, DecidableEq

structure Config where
  id : String
  warehouse_dimensions : WarehouseDims
  num_blocks : Nat
  block_gap : ℚ
  block_gap_unit : String
  block_configs : List BlockConfig
deriving Repr, DecidableEq

structure PalletDims where
  length : ℚ
  width : ℚ
  height : ℚ
deriving Repr, DecidableEq

structure PalletData where
  type : String
  color : String
  weight : ℚ
  dimensions : PalletDims
  position : PalletPosition
deriving Repr, DecidableEq

/-- One rack-floor output entry (the dict built at warehouse_calc.py lines
147-157). -/
structure RackEntry where
  id : String
  position : Pos3
  dimensions : Dims3
  floor : Nat
  row : Nat
  column : Nat
  pallets : List PalletData
deriving Repr, DecidableEq

/-- `WarehouseCalculator.create_pallet_data` (warehouse_calc.py lines
175-186). -/
def create_pallet_data (p : PalletConfig) : Except CalcErr PalletData := do
  let l ← convert_to_centimeters p.length p.unit
  let w ← convert_to_centimeters p.width p.unit
  let h ← convert_to_centimeters p.height p.unit
  .ok { type := p.type, color := p.color, weight := p.weight,
        dimensions := { length := l, width := w, height := h },
        position := p.position }

/-- The pallet-position match test of warehouse_calc.py lines 163-165, with
1-based indices `f r c`. -/
def matchPos (p : PalletConfig) (f r c : Nat) : Bool :=
  p.position.floor == (f : Int) && p.position.row == (r : Int) && p.position.col == (c : Int)

/-- Values fixed before the placement loops of `calculate_racks_for_block`
start (warehouse_calc.py lines 87-121). -/
structure LoopEnv where
  custom_gaps : List ℚ
  num_floors : Nat
  num_racks_total : Nat
  racks_per_row : Nat
  rack_w : ℚ
  rack_l : ℚ
  floor_h : ℚ
  block_w : ℚ
  block_l : ℚ
  gap_l : ℚ
  gap_f : ℚ
  pallets : List PalletConfig
deriving Repr

/-- The id string of warehouse_calc.py lines 142 and 148. -/
def rackFloorId (r c f : Nat) : String :=
  "rack_" ++ toString (r+1) ++ "_" ++ toString (c+1) ++ "_f" ++ toString (f+1)

/-- The floors loop of warehouse_calc.py lines 144-168: one entry per floor
of the rack at row `r`, column `c`, with the pallets matching that cell. -/
def floorsFor (E : LoopEnv) (r c : Nat) (x z : ℚ) : Except CalcErr (List RackEntry) :=
  (List.range E.num_floors).mapM fun f => do
    let ps ← (E.pallets.filter fun p => matchPos p (f+1) (r+1) (c+1)).mapM create_pallet_data
    .ok { id := rackFloorId r c f,
          position := { x := x, y := (f : ℚ) * E.floor_h + E.floor_h / 2, z := z },
          dimensions := { width := E.rack_w, length := E.rack_l, height := E.floor_h },
          floor := f+1, row := r+1, column := c+1, pallets := ps }

/-- The inner (column) loop of warehouse_calc.py lines 127-171, recursing on
the number of remaining columns; `c` is the column index, `cur` the running
`current_x_offset`, `g` the running `global_rack_count`.  Returns the emitted
entries and the final `global_rack_count`.  (When `0 < c`, every reachable
call has `c ≤ g`, so the `g - 1` gap index matches Python's
`global_rack_count - 1`.) -/
def colLoop (E : LoopEnv) (r : Nat) : Nat → Nat → ℚ → Nat → Except CalcErr (List RackEntry × Nat)
  | 0, _, _, g => .ok ([], g)
  | n+1, c, cur, g =>
    if E.num_racks_total ≤ g then .ok ([], g)
    else do
      let gap_before : ℚ := if 0 < c then E.custom_gaps.getD (g - 1) 0 else 0
      let cur2 := cur + gap_before
      let x_pos := cur2 + E.rack_w / 2
      let z_start := -E.block_l / 2 + E.gap_f + E.rack_l / 2
      let z_pos := z_start + (r : ℚ) * (E.rack_l + 150)
      let entries ← floorsFor E r c x_pos z_pos
      let pr ← colLoop E r n (c+1) (cur2 + E.rack_w) (g+1)
      .ok (entries ++ pr.1, pr.2)

/-- The outer (row) loop of warehouse_calc.py lines 124-171, recursing on the
number of remaining rows; `r` is the row index, `g` the running
`global_rack_count` (never reset between rows). -/
def rowLoop (E : LoopEnv) : Nat → Nat → Nat → Except CalcErr (List RackEntry)
  | 0, _, _ => .ok []
  | n+1, r, g => do
    let pr ← colLoop E r E.racks_per_row 0 (-E.block_w / 2 + E.gap_l) g
    let rest ← rowLoop E n (r+1) pr.2
    .ok (pr.1 ++ rest)

/-- `racks_per_row = math.ceil(num_racks / num_rows) if num_rows > 0 else 0`
(warehouse_calc.py line 93), as a natural-number ceiling division. -/
def racksPerRow (rc : RackConfig) : Nat :=
  if 0 < rc.num_rows then (rc.num_racks + rc.num_rows - 1) / rc.num_rows else 0

/-- The per-row gap sum of warehouse_calc.py lines 99-104: missing entries of
`custom_gaps` contribute 0. -/
def rowGapSum (gaps : List ℚ) (start cnt : Nat) : ℚ :=
  (List.range cnt).foldl (fun acc c => acc + gaps.getD (start + c) 0) 0

/-- `max_row_gap_sum` (warehouse_calc.py lines 96-106). -/
def maxRowGapSum (rows rpr : Nat) (gaps : List ℚ) : ℚ :=
  (List.range rows).foldl
    (fun m r =>
      let s := rowGapSum gaps (r * rpr) (rpr - 1)
      if m < s then s else m) 0

/-- `WarehouseCalculator.calculate_racks_for_block` (warehouse_calc.py lines
76-173).  Note the two safety fallbacks of the source: a clamp of `rack_w`
to 50 when it is below 10, and the early `return []` when `racks_per_row`
is 0; `num_floors = 0` hits Python's `ZeroDivisionError` at line 120. -/
def calculate_racks_for_block (block_dims : Dims3) (block_conf : BlockConfig) :
    Except CalcErr (List RackEntry) := do
  let rc := block_conf.rack_config
  let gap_f ← convert_to_centimeters rc.gap_front rc.wall_gap_unit
  let gap_b ← convert_to_centimeters rc.gap_back rc.wall_gap_unit
  let gap_l ← convert_to_centimeters rc.gap_left rc.wall_gap_unit
  let gap_r ← convert_to_centimeters rc.gap_right rc.wall_gap_unit
  let custom_gaps ← rc.custom_gaps.mapM fun g => convert_to_centimeters g rc.gap_unit
  let rpr := racksPerRow rc
  if rpr = 0 then .ok [] else do
  let max_row_gap_sum := maxRowGapSum rc.num_rows rpr custom_gaps
  let avail_w := block_dims.width - gap_l - gap_r
  let avail_l := block_dims.length - gap_f - gap_b
  let rack_w0 := (avail_w - max_row_gap_sum) / (rpr : ℚ)
  let rack_w := if rack_w0 < 10 then 50 else rack_w0
  let total_row_gaps : ℚ := if 1 < rc.num_rows then 150 * ((rc.num_rows : ℚ) - 1) else 0
  let rack_l := (avail_l - total_row_gaps) / (rc.num_rows : ℚ)
  if rc.num_floors = 0 then .error .zeroDivision else do
  let rack_h := block_dims.height * (4/5)
  let floor_h := rack_h / (rc.num_floors : ℚ)
  rowLoop { custom_gaps := custom_gaps, num_floors := rc.num_floors,
            num_racks_total := rc.num_racks, racks_per_row := rpr,
            rack_w := rack_w, rack_l := rack_l, floor_h := floor_h,
            block_w := block_dims.width, block_l := block_dims.length,
            gap_l := gap_l, gap_f := gap_f, pallets := block_conf.pallet_configs }
          rc.num_rows 0 0

/-- The `colors` list of `get_block_color` (warehouse_calc.py line 189). -/
def block_colors : List String :=
  ["#FF6B6B", "#4ECDC4", "#FFD166", "#06D6A0", "#118AB2", "#073B4C", "#7209B7", "#F72585"]

/-- `WarehouseCalculator.get_block_color` (warehouse_calc.py lines 188-190). -/
def get_block_color (index : Nat) : String :=
  block_colors.getD (index % block_colors.length) ""

structure BlockData where
  id : String
  name : String
  position : Pos3
  dimensions : Dims3
  color : String
  racks : List RackEntry
deriving Repr, DecidableEq

structure Layout where
  warehouse_dimensions : WarehouseDims
  blocks : List BlockData
  total_pallets : Nat
deriving Repr, DecidableEq

/-- The block-generation loop of warehouse_calc.py lines 47-68, one
`BlockData` per element of `block_configs`, with `i` the running index. -/
def buildBlocks (start_x block_width block_gap block_length wh_height : ℚ) :
    List BlockConfig → Nat → Except CalcErr (List BlockData)
  | [], _ => .ok []
  | bc :: rest, i => do
    let x_offset := start_x + (i : ℚ) * (block_width + block_gap)
    let dims : Dims3 := { width := block_width, length := block_length, height := wh_height }
    let racks ← calculate_racks_for_block dims bc
    let rest2 ← buildBlocks start_x block_width block_gap block_length wh_height rest (i+1)
    .ok ({ id := "block_" ++ toString (i+1), name := "Block " ++ toString (i+1),
           position := { x := x_offset, y := 0, z := 0 },
           dimensions := dims, color := get_block_color i, racks := racks } :: rest2)

/-- `WarehouseCalculator.create_warehouse_layout` (warehouse_calc.py lines
22-74).  Note the safety fallback of line 36 (clamping `available_width` to
100 when it is non-positive) and the `ZeroDivisionError` at line 38 when
`num_blocks = 0`. -/
def create_warehouse_layout (config : Config) : Except CalcErr Layout := do
  let wd := config.warehouse_dimensions
  let wh_length ← convert_to_centimeters wd.length wd.unit
  let wh_width ← convert_to_centimeters wd.width wd.unit
  let wh_height ← convert_to_centimeters wd.height wd.unit
  let block_gap ← convert_to_centimeters config.block_gap config.block_gap_unit
  let total_gap_width : ℚ :=
    if 1 < config.num_blocks then block_gap * ((config.num_blocks : ℚ) - 1) else 0
  let available_width0 := wh_width - total_gap_width
  let available_width := if available_width0 ≤ 0 then 100 else available_width0
  if config.num_blocks = 0 then .error .zeroDivision else do
  let block_width := available_width / (config.num_blocks : ℚ)
  let block_length := wh_length
  let total_occupied_width := block_width * (config.num_blocks : ℚ) + total_gap_width
  let start_x := -total_occupied_width / 2 + block_width / 2
  let blocks ← buildBlocks start_x block_width block_gap block_length wh_height
                 config.block_configs 0
  .ok { warehouse_dimensions := wd, blocks := blocks,
        total_pallets := (config.block_configs.map fun bc => bc.pallet_configs.length).sum }

structure ValidateResult where
  valid : Bool
  message : String
deriving Repr, DecidableEq

/-- The `str(e)` message a `CalcErr` carries when surfaced by the API. -/
def errorMessage : CalcErr → String
  | .valueError u => "Unsupported unit: " ++ u
  | .zeroDivision => "division by zero"

/-- The `/api/warehouse/validate` endpoint `validate_config` (main.py lines
107-119): a dry run of `create_warehouse_layout` whose `try` catches ONLY
`ValueError`; any other exception (e.g. `ZeroDivisionError`) propagates. -/
def validate_config (config : Config) : Except CalcErr ValidateResult :=
  match create_warehouse_layout config with
  | .ok _ => .ok { valid := true, message := "Configuration looks good!" }
  | .error (.valueError u) => .ok { valid := false, message := errorMessage (.valueError u) }
  | .error .zeroDivision => .error .zeroDivision

inductive CreateResponse where
  | success (warehouse_id : String) (layout : Layout)
  | httpError (status : Nat) (detail : String)
deriving Repr, DecidableEq

/-- The `/api/warehouse/create` endpoint `create_warehouse` (main.py lines
79-105): catches every exception and turns it into an HTTP 400 response.
(The in-memory store write is outside this pure model.) -/
def create_warehouse (config : Config) : CreateResponse :=
  match create_warehouse_layout config with
  | .ok l => .success config.id l
  | .error e => .httpError 400 (errorMessage e)

/-- Truth of `unit in self.conversion_factors`. -/
def unitKnown (u : String) : Bool := (conversion_factors u).isSome

/-- The value `convert_to_centimeters` returns when the unit is known. -/
def convPure (v : ℚ) (u : String) : ℚ := v * (conversion_factors u).getD 0

def palletUnitsOk (p : PalletConfig) : Bool := unitKnown p.unit

/-- Units of a rack config convert without error (`custom_gaps` only consults
its `gap_unit` when the list is non-empty). -/
def rackUnitsOk (rc : RackConfig) : Bool :=
  unitKnown rc.wall_gap_unit && (rc.custom_gaps.isEmpty || unitKnown rc.gap_unit)

/-- A sufficient condition for `calculate_racks_for_block` to return `.ok`:
units convert, and either no racks are generated (`racks_per_row = 0`) or the
floor count is positive (avoiding `ZeroDivisionError`) with every pallet
unit known. -/
def blockCalcOk (bc : BlockConfig) : Bool :=
  rackUnitsOk bc.rack_config &&
    (racksPerRow bc.rack_config == 0 ||
      (bc.rack_config.num_floors != 0 && bc.pallet_configs.all palletUnitsOk))

/-- The warehouse-level units of a config convert without error. -/
def configUnitsOk (cfg : Config) : Bool :=
  unitKnown cfg.warehouse_dimensions.unit && unitKnown cfg.block_gap_unit

/-- Warehouse width in centimeters, as `create_warehouse_layout` computes it. -/
def whWidthCm (cfg : Config) : ℚ :=
  convPure cfg.warehouse_dimensions.width cfg.warehouse_dimensions.unit

/-- Block gap in centimeters, as `create_warehouse_layout` computes it. -/
def blockGapCm (cfg : Config) : ℚ := convPure cfg.block_gap cfg.block_gap_unit

/-- `total_gap_width` of warehouse_calc.py line 33. -/
def totalGapWidth (cfg : Config) : ℚ :=
  if 1 < cfg.num_blocks then blockGapCm cfg * ((cfg.num_blocks : ℚ) - 1) else 0

/-- `available_width` of warehouse_calc.py line 34, before the safety clamp
of line 36. -/
def availableWidth0 (cfg : Config) : ℚ := whWidthCm cfg - totalGapWidth cfg

/-- Value of `create_pallet_data` when the pallet unit is known. -/
def palletDataPure (p : PalletConfig) : PalletData :=
  { type := p.type, color := p.color, weight := p.weight,
    dimensions := { length := convPure p.length p.unit, width := convPure p.width p.unit,
                    height := convPure p.height p.unit },
    position := p.position }

/-- The pallets attached to the cell with 1-based indices `(f, r, c)`
(warehouse_calc.py lines 159-166), when all pallet units are known. -/
def palletsAtD (ps : List PalletConfig) (f r c : Nat) : List PalletData :=
  (ps.filter fun p => matchPos p f r c).map palletDataPure

/-- Exception-free mirror of `floorsFor` (equal to it when all pallet units
are known). -/
def floorsForPure (E : LoopEnv) (r c : Nat) (x z : ℚ) : List RackEntry :=
  (List.range E.num_floors).map fun f =>
    { id := rackFloorId r c f,
      position := { x := x, y := (f : ℚ) * E.floor_h + E.floor_h / 2, z := z },
      dimensions := { width := E.rack_w, length := E.rack_l, height := E.floor_h },
      floor := f+1, row := r+1, column := c+1,
      pallets := palletsAtD E.pallets (f+1) (r+1) (c+1) }

/-- Exception-free mirror of `colLoop`. -/
def colLoopPure (E : LoopEnv) (r : Nat) : Nat → Nat → ℚ → Nat → List RackEntry × Nat
  | 0, _, _, g => ([], g)
  | n+1, c, cur, g =>
    if E.num_racks_total ≤ g then ([], g)
    else
      let gap_before : ℚ := if 0 < c then E.custom_gaps.getD (g - 1) 0 else 0
      let cur2 := cur + gap_before
      let pr := colLoopPure E r n (c+1) (cur2 + E.rack_w) (g+1)
      (floorsForPure E r c (cur2 + E.rack_w / 2)
         (-E.block_l / 2 + E.gap_f + E.rack_l / 2 + (r : ℚ) * (E.rack_l + 150)) ++ pr.1, pr.2)

/-- Exception-free mirror of `rowLoop`. -/
def rowLoopPure (E : LoopEnv) : Nat → Nat → Nat → List RackEntry
  | 0, _, _ => []
  | n+1, r, g =>
    let pr := colLoopPure E r E.racks_per_row 0 (-E.block_w / 2 + E.gap_l) g
    pr.1 ++ rowLoopPure E n (r+1) pr.2

/-- The `LoopEnv` that `calculate_racks_for_block` passes to its loops, with
all conversions written with `convPure`. -/
def calcEnv (d : Dims3) (bc : BlockConfig) : LoopEnv :=
  let rc := bc.rack_config
  let gap_f := convPure rc.gap_front rc.wall_gap_unit
  let gap_b := convPure rc.gap_back rc.wall_gap_unit
  let gap_l := convPure rc.gap_left rc.wall_gap_unit
  let gap_r := convPure rc.gap_right rc.wall_gap_unit
  let custom_gaps := rc.custom_gaps.map fun g => convPure g rc.gap_unit
  let rpr := racksPerRow rc
  let rack_w0 := (d.width - gap_l - gap_r - maxRowGapSum rc.num_rows rpr custom_gaps) / (rpr : ℚ)
  { custom_gaps := custom_gaps, num_floors := rc.num_floors, num_racks_total := rc.num_racks,
    racks_per_row := rpr,
    rack_w := if rack_w0 < 10 then 50 else rack_w0,
    rack_l := (d.length - gap_f - gap_b -
        if 1 < rc.num_rows then 150 * ((rc.num_rows : ℚ) - 1) else 0) / (rc.num_rows : ℚ),
    floor_h := d.height * (4/5) / (rc.num_floors : ℚ),
    block_w := d.width, block_l := d.length, gap_l := gap_l, gap_f := gap_f,
    pallets := bc.pallet_configs }

/-- Exception-free mirror of `calculate_racks_for_block` (equal to it under
`blockCalcOk`). -/
def calcRacksPure (d : Dims3) (bc : BlockConfig) : List RackEntry :=
  if racksPerRow bc.rack_config = 0 then []
  else rowLoopPure (calcEnv d bc) bc.rack_config.num_rows 0 0


/-- The block width `create_warehouse_layout` assigns to every block
(warehouse_calc.py lines 36-38, including the safety clamp). -/
def blockWidthCm (cfg : Config) : ℚ :=
  (if availableWidth0 cfg ≤ 0 then 100 else availableWidth0 cfg) / (cfg.num_blocks : ℚ)

/-- A minimal rack config (1 floor, 1 row, 1 rack, all gaps 0, cm units). -/
def simpleRack : RackConfig :=
  { num_floors := 1, num_rows := 1, num_racks := 1, gap_between_racks := 0,
    custom_gaps := [], gap_unit := "cm", gap_front := 0, gap_back := 0,
    gap_left := 0, gap_right := 0, wall_gap_unit := "cm" }

/-- A minimal block config with no pallets. -/
def simpleBlock : BlockConfig :=
  { block_index := 0, rack_config := simpleRack, pallet_configs := [] }

/-- The spec §8 example scenario: warehouse 3000×2000×800 cm, 2 blocks,
block gap 300 cm. -/
def c5Config : Config :=
  { id := "w5", warehouse_dimensions := { length := 3000, width := 2000, height := 800, unit := "cm" },
    num_blocks := 2, block_gap := 300, block_gap_unit := "cm",
    block_configs := [simpleBlock, simpleBlock] }

/-- The spec §8 gap scenario block: rows=2, racks_total=4, custom_gaps=[20] cm. -/
def c3Block : BlockConfig :=
  { block_index := 0,
    rack_config :=
      { num_floors := 1, num_rows := 2, num_racks := 4, gap_between_racks := 0,
        custom_gaps := [20], gap_unit := "cm", gap_front := 0, gap_back := 0,
        gap_left := 0, gap_right := 0, wall_gap_unit := "cm" },
    pallet_configs := [] }

/-- The spec §8 failure scenario block: rows=0 while racks_total=5. -/
def c2Block : BlockConfig :=
  { block_index := 0,
    rack_config :=
      { num_floors := 1, num_rows := 0, num_racks := 5, gap_between_racks := 0,
        custom_gaps := [], gap_unit := "cm", gap_front := 0, gap_back := 0,
        gap_left := 0, gap_right := 0, wall_gap_unit := "cm" },
    pallet_configs := [] }

/-- Block whose rack config has `num_floors = 0`. -/
def c9Block : BlockConfig :=
  { block_index := 0,
    rack_config :=
      { num_floors := 0, num_rows := 1, num_racks := 1, gap_between_racks := 0,
        custom_gaps := [], gap_unit := "cm", gap_front := 0, gap_back := 0,
        gap_left := 0, gap_right := 0, wall_gap_unit := "cm" },
    pallet_configs := [] }

/-- Config whose only block has `num_floors = 0`; the engine divides by zero
at `floor_h = rack_h / num_floors`. -/
def c9Config : Config :=
  { id := "w9", warehouse_dimensions := { length := 1000, width := 1000, height := 500, unit := "cm" },
    num_blocks := 1, block_gap := 0, block_gap_unit := "cm",
    block_configs := [c9Block] }

/-- Config with `num_blocks = 0`; the engine divides by zero at
`block_width = available_width / num_blocks`. -/
def c9zConfig : Config :=
  { id := "wz", warehouse_dimensions := { length := 400, width := 600, height := 300, unit := "cm" },
    num_blocks := 0, block_gap := 0, block_gap_unit := "cm", block_configs := [] }

/-- Config with warehouse width 100 cm, 2 blocks and a 300 cm block gap:
the available width is 100 - 300 = -200 ≤ 0. -/
def c1Config : Config :=
  { id := "w1", warehouse_dimensions := { length := 1000, width := 100, height := 500, unit := "cm" },
    num_blocks := 2, block_gap := 300, block_gap_unit := "cm",
    block_configs := [simpleBlock, simpleBlock] }

/-- A pallet declared at 1-based position (floor=2, row=1, col=2). -/
def c6Pallet : PalletConfig :=
  { type := "euro", weight := 100, length := 120, width := 80, height := 15,
    unit := "cm", color := "#8B4513", position := { floor := 2, row := 1, col := 2 } }

/-- Block with a 2-floors × 2-rows × 2-columns grid and one pallet at
(2, 1, 2). -/
def c6Block : BlockConfig :=
  { block_index := 0,
    rack_config :=
      { num_floors := 2, num_rows := 2, num_racks := 4, gap_between_racks := 0,
        custom_gaps := [], gap_unit := "cm", gap_front := 10, gap_back := 10,
        gap_left := 10, gap_right := 10, wall_gap_unit := "cm" },
    pallet_configs := [c6Pallet] }

/-- Facts that hold of every emitted entry for 0-based row `r`, column `k`,
floor `f`. -/
def entryDesc (E : LoopEnv) (e : RackEntry) (r k f : Nat) : Prop :=
  f < E.num_floors ∧ e.floor = f + 1 ∧ e.row = r + 1 ∧ e.column = k + 1 ∧
  e.pallets = palletsAtD E.pallets (f + 1) (r + 1) (k + 1) ∧
  e.dimensions = { width := E.rack_w, length := E.rack_l, height := E.floor_h } ∧
  e.position.y = (f : ℚ) * E.floor_h + E.floor_h / 2

/-- Two entries carry different (floor, row, column) index triples. -/
def DistinctIdx (a b : RackEntry) : Prop :=
  (a.floor, a.row, a.column) ≠ (b.floor, b.row, b.column)

lemma convert_eq_pure {u : String} (h : unitKnown u = true) (v : ℚ) :
    convert_to_centimeters v u = .ok (convPure v u) := by
  unfold convert_to_centimeters convPure
  unfold unitKnown at h
  cases hc : conversion_factors u with
  | none => rw [hc] at h; simp at h
  | some f => simp [hc]

lemma mapM_convert_eq {u : String} (h : unitKnown u = true) (gs : List ℚ) :
    gs.mapM (fun g => convert_to_centimeters g u)
      = .ok (gs.map (fun g => convPure g u)) := by
  induction gs with
  | nil => rfl
  | cons a t ih =>
      rw [List.mapM_cons, convert_eq_pure h, ih]
      rfl

lemma create_pallet_data_eq_pure {p : PalletConfig} (h : palletUnitsOk p = true) :
    create_pallet_data p = .ok (palletDataPure p) := by
  unfold palletUnitsOk at h
  unfold create_pallet_data palletDataPure
  rw [convert_eq_pure h, convert_eq_pure h, convert_eq_pure h]
  rfl

lemma mapM_pallet_eq {ps : List PalletConfig} (h : ps.all palletUnitsOk = true) :
    ps.mapM create_pallet_data = .ok (ps.map palletDataPure) := by
  induction ps with
  | nil => rfl
  | cons a t ih =>
      rw [List.all_cons, Bool.and_eq_true] at h
      rw [List.mapM_cons, create_pallet_data_eq_pure h.1, ih h.2]
      rfl

lemma mapM_eq_map_of_ok {α β : Type} {f : α → Except CalcErr β} {g : α → β} :
    ∀ {l : List α}, (∀ a ∈ l, f a = .ok (g a)) → l.mapM f = .ok (l.map g) := by
  intro l
  induction l with
  | nil => intro _; rfl
  | cons a t ih =>
      intro h
      rw [List.mapM_cons, h a (List.mem_cons_self a t),
        ih fun b hb => h b (List.mem_cons_of_mem a hb)]
      rfl

lemma floorsFor_eq_pure {E : LoopEnv} (h : E.pallets.all palletUnitsOk = true)
    (r c : Nat) (x z : ℚ) : floorsFor E r c x z = .ok (floorsForPure E r c x z) := by
  unfold floorsFor floorsForPure palletsAtD
  apply mapM_eq_map_of_ok
  intro f _
  rw [mapM_pallet_eq (List.all_eq_true.2 fun p hp =>
    List.all_eq_true.1 h p (List.mem_of_mem_filter hp))]
  rfl

lemma okBind {α β : Type} (a : α) (f : α → Except CalcErr β) :
    (Except.ok a : Except CalcErr α) >>= f = f a := rfl

lemma colLoop_eq_pure {E : LoopEnv} (h : E.pallets.all palletUnitsOk = true) (r : Nat) :
    ∀ (n c : Nat) (cur : ℚ) (g : Nat),
      colLoop E r n c cur g = .ok (colLoopPure E r n c cur g) := by
  intro n
  induction n with
  | zero => intro c cur g; rfl
  | succ m ih =>
      intro c cur g
      unfold colLoop colLoopPure
      by_cases hg : E.num_racks_total ≤ g
      · simp only [hg, if_pos, if_true]
      · simp only [hg, if_neg, if_false, ite_false]
        rw [floorsFor_eq_pure h]
        simp only [okBind]
        rw [ih]
        rfl

lemma rowLoop_eq_pure {E : LoopEnv} (h : E.pallets.all palletUnitsOk = true) :
    ∀ (n r g : Nat), rowLoop E n r g = .ok (rowLoopPure E n r g) := by
  intro n
  induction n with
  | zero => intro r g; rfl
  | succ m ih =>
      intro r g
      unfold rowLoop rowLoopPure
      rw [colLoop_eq_pure h]
      simp only [okBind]
      rw [ih]
      rfl

lemma calc_racks_eq_pure {d : Dims3} {bc : BlockConfig} (h : blockCalcOk bc = true) :
    calculate_racks_for_block d bc = .ok (calcRacksPure d bc) := by
  unfold blockCalcOk rackUnitsOk at h
  rw [Bool.and_eq_true, Bool.and_eq_true] at h
  obtain ⟨⟨hwall, hgaps⟩, hrest⟩ := h
  unfold calculate_racks_for_block calcRacksPure calcEnv
  dsimp only
  rw [convert_eq_pure hwall, convert_eq_pure hwall, convert_eq_pure hwall,
    convert_eq_pure hwall]
  simp only [okBind]
  have hmap : bc.rack_config.custom_gaps.mapM
      (fun g => convert_to_centimeters g bc.rack_config.gap_unit)
      = .ok (bc.rack_config.custom_gaps.map
          (fun g => convPure g bc.rack_config.gap_unit)) := by
    rw [Bool.or_eq_true] at hgaps
    cases hgaps with
    | inl he =>
        rw [List.isEmpty_iff] at he
        rw [he]
        rfl
    | inr hu => exact mapM_convert_eq hu _
  rw [hmap]
  simp only [okBind]
  by_cases hrpr : racksPerRow bc.rack_config = 0
  · simp only [hrpr, if_pos, if_true]
  · simp only [hrpr, if_neg, ite_false]
    rw [Bool.or_eq_true, Bool.and_eq_true] at hrest
    rcases hrest with he | ⟨hfl, hps⟩
    · exact absurd (by simpa using he) hrpr
    · have hfl2 : ¬ bc.rack_config.num_floors = 0 := by
        intro hz
        rw [hz] at hfl
        simp at hfl
      simp only [hfl2, if_neg, ite_false]
      exact rowLoop_eq_pure hps _ _ _

lemma mem_floorsForPure {E : LoopEnv} {r c : Nat} {x z : ℚ} {e : RackEntry}
    (he : e ∈ floorsForPure E r c x z) : ∃ f, f < E.num_floors ∧ entryDesc E e r c f := by
  simp only [floorsForPure, List.mem_map, List.mem_range] at he
  obtain ⟨f, hf, rfl⟩ := he
  exact ⟨f, hf, hf, rfl, rfl, rfl, rfl, rfl, rfl⟩

lemma floorsForPure_idx {E : LoopEnv} {r c : Nat} {x z : ℚ} (f : Nat)
    (hf : f < E.num_floors) :
    ∃ e ∈ floorsForPure E r c x z, e.floor = f + 1 ∧ e.row = r + 1 ∧ e.column = c + 1 := by
  refine ⟨_, List.mem_map.2 ⟨f, List.mem_range.2 hf, rfl⟩, rfl, rfl, rfl⟩

lemma mem_colLoopPure {E : LoopEnv} {r : Nat} :
    ∀ {n c : Nat} {cur : ℚ} {g : Nat} {e : RackEntry},
      e ∈ (colLoopPure E r n c cur g).1 →
      ∃ k f, k < n ∧ g + k < E.num_racks_total ∧ entryDesc E e r (c + k) f := by
  intro n
  induction n with
  | zero =>
      intro c cur g e he
      simp [colLoopPure] at he
  | succ m ih =>
      intro c cur g e he
      rw [colLoopPure] at he
      by_cases hg : E.num_racks_total ≤ g
      · simp [hg] at he
      · simp only [hg, ite_false, if_false] at he
        rw [List.mem_append] at he
        cases he with
        | inl hf =>
            obtain ⟨f, hfl, hd⟩ := mem_floorsForPure hf
            exact ⟨0, f, Nat.succ_pos m, by omega, hd⟩
        | inr hrest =>
            obtain ⟨k, f, hk, hg2, hd⟩ := ih hrest
            refine ⟨k + 1, f, by omega, by omega, ?_⟩
            have hck : c + 1 + k = c + (k + 1) := by omega
            rwa [hck] at hd

lemma colLoopPure_exists {E : LoopEnv} {r : Nat} :
    ∀ {n c : Nat} {cur : ℚ} {g : Nat} (k f : Nat), k < n → g + k < E.num_racks_total →
      f < E.num_floors →
      ∃ e ∈ (colLoopPure E r n c cur g).1,
        e.floor = f + 1 ∧ e.row = r + 1 ∧ e.column = c + k + 1 := by
  intro n
  induction n with
  | zero =>
      intro c cur g k f hk
      exact absurd hk (Nat.not_lt_zero k)
  | succ m ih =>
      intro c cur g k f hk hg hf
      rw [colLoopPure]
      have hng : ¬ E.num_racks_total ≤ g := by omega
      simp only [hng, ite_false, if_false]
      cases k with
      | zero =>
          obtain ⟨e, he, h⟩ := floorsForPure_idx f hf
          exact ⟨e, List.mem_append_left _ he, h⟩
      | succ k0 =>
          have hk0 : k0 < m := by omega
          have hg0 : g + 1 + k0 < E.num_racks_total := by omega
          obtain ⟨e, he, h1, h2, h3⟩ := ih k0 f hk0 hg0 hf
          refine ⟨e, List.mem_append_right _ he, h1, h2, ?_⟩
          rw [h3]
          omega

lemma colLoopPure_g {E : LoopEnv} {r : Nat} :
    ∀ {n c : Nat} {cur : ℚ} {g : Nat},
      (colLoopPure E r n c cur g).2 = g + min n (E.num_racks_total - g) := by
  intro n
  induction n with
  | zero =>
      intro c cur g
      simp [colLoopPure]
  | succ m ih =>
      intro c cur g
      rw [colLoopPure]
      by_cases hg : E.num_racks_total ≤ g
      · have h0 : E.num_racks_total - g = 0 := by omega
        simp [hg, h0]
      · simp only [hg, ite_false, if_false]
        rw [ih]
        omega

lemma mem_rowLoopPure {E : LoopEnv} :
    ∀ {n r g : Nat} {e : RackEntry}, e ∈ rowLoopPure E n r g →
      ∃ i k f, i < n ∧ k < E.racks_per_row ∧ entryDesc E e (r + i) k f := by
  intro n
  induction n with
  | zero =>
      intro r g e he
      simp [rowLoopPure] at he
  | succ m ih =>
      intro r g e he
      rw [rowLoopPure] at he
      rw [List.mem_append] at he
      cases he with
      | inl h1 =>
          obtain ⟨k, f, hk, _, hd⟩ := mem_colLoopPure h1
          refine ⟨0, k, f, Nat.succ_pos m, hk, ?_⟩
          simpa using hd
      | inr h2 =>
          obtain ⟨i, k, f, hi, hk, hd⟩ := ih h2
          refine ⟨i + 1, k, f, by omega, hk, ?_⟩
          have hri : r + 1 + i = r + (i + 1) := by omega
          rwa [hri] at hd

lemma rowLoopPure_exists {E : LoopEnv} :
    ∀ {n r g : Nat} (i k f : Nat), i < n → k < E.racks_per_row → f < E.num_floors →
      g + i * E.racks_per_row + k < E.num_racks_total →
      ∃ e ∈ rowLoopPure E n r g, e.floor = f + 1 ∧ e.row = r + i + 1 ∧ e.column = k + 1 := by
  intro n
  induction n with
  | zero =>
      intro r g i k f hi
      exact absurd hi (Nat.not_lt_zero i)
  | succ m ih =>
      intro r g i k f hi hk hf hg
      rw [rowLoopPure]
      cases i with
      | zero =>
          have hg0 : g + k < E.num_racks_total := by omega
          obtain ⟨e, he, h⟩ := @colLoopPure_exists E r E.racks_per_row 0
            (-E.block_w / 2 + E.gap_l) g k f hk hg0 hf
          exact ⟨e, List.mem_append_left _ he, by simpa using h⟩
      | succ i0 =>
          have hrle : E.racks_per_row ≤ (i0 + 1) * E.racks_per_row :=
            Nat.le_mul_of_pos_left _ (Nat.succ_pos i0)
          have hmul : (i0 + 1) * E.racks_per_row = i0 * E.racks_per_row + E.racks_per_row :=
            Nat.succ_mul i0 E.racks_per_row
          have hg2 : (colLoopPure E r E.racks_per_row 0 (-E.block_w / 2 + E.gap_l) g).2
              = g + E.racks_per_row := by
            rw [colLoopPure_g]
            omega
          rw [hg2]
          have hi0 : i0 < m := by omega
          have hgi : g + E.racks_per_row + i0 * E.racks_per_row + k < E.num_racks_total := by
            omega
          obtain ⟨e, he, h1, h2, h3⟩ := ih i0 k f hi0 hk hf hgi
          refine ⟨e, List.mem_append_right _ he, h1, ?_, h3⟩
          rw [h2]
          omega

lemma pairwise_floorsForPure {E : LoopEnv} {r c : Nat} {x z : ℚ} :
    (floorsForPure E r c x z).Pairwise DistinctIdx := by
  unfold floorsForPure
  rw [List.pairwise_map]
  apply List.Pairwise.imp ?_ (List.pairwise_lt_range _)
  intro a b hab
  unfold DistinctIdx
  intro hcon
  simp only [Prod.mk.injEq] at hcon
  omega

lemma pairwise_colLoopPure {E : LoopEnv} {r : Nat} :
    ∀ {n c : Nat} {cur : ℚ} {g : Nat}, ((colLoopPure E r n c cur g).1).Pairwise DistinctIdx := by
  intro n
  induction n with
  | zero =>
      intro c cur g
      simp [colLoopPure]
  | succ m ih =>
      intro c cur g
      rw [colLoopPure]
      by_cases hg : E.num_racks_total ≤ g
      · simp [hg]
      · simp only [hg, ite_false, if_false]
        rw [List.pairwise_append]
        refine ⟨pairwise_floorsForPure, ih, ?_⟩
        intro a ha b hb
        obtain ⟨fa, _, hda⟩ := mem_floorsForPure ha
        obtain ⟨k, fb, _, _, hdb⟩ := mem_colLoopPure hb
        unfold DistinctIdx
        intro hcon
        rw [Prod.mk.injEq, Prod.mk.injEq] at hcon
        have hca : a.column = c + 1 := hda.2.2.2.1
        have hcb : b.column = c + 1 + k + 1 := hdb.2.2.2.1
        omega

lemma pairwise_rowLoopPure {E : LoopEnv} :
    ∀ {n r g : Nat}, (rowLoopPure E n r g).Pairwise DistinctIdx := by
  intro n
  induction n with
  | zero =>
      intro r g
      simp [rowLoopPure]
  | succ m ih =>
      intro r g
      rw [rowLoopPure]
      rw [List.pairwise_append]
      refine ⟨pairwise_colLoopPure, ih, ?_⟩
      intro a ha b hb
      obtain ⟨k, fa, _, _, hda⟩ := mem_colLoopPure ha
      obtain ⟨i, kb, fb, _, _, hdb⟩ := mem_rowLoopPure hb
      unfold DistinctIdx
      intro hcon
      rw [Prod.mk.injEq, Prod.mk.injEq] at hcon
      have hra : a.row = r + 1 := hda.2.2.1
      have hrb : b.row = r + 1 + i + 1 := hdb.2.2.1
      omega

lemma buildBlocks_ok {sx bw bg bl wh : ℚ} :
    ∀ (bcs : List BlockConfig) (i : Nat), (∀ bc ∈ bcs, blockCalcOk bc = true) →
      ∃ bs, buildBlocks sx bw bg bl wh bcs i = .ok bs ∧
        bs.map (fun b => b.dimensions.width) = bcs.map (fun _ => bw) := by
  intro bcs
  induction bcs with
  | nil =>
      intro i h
      exact ⟨[], rfl, rfl⟩
  | cons a t ih =>
      intro i h
      obtain ⟨bs, hbs, hmap⟩ := ih (i+1) fun bc hbc => h bc (List.mem_cons_of_mem a hbc)
      unfold buildBlocks
      dsimp only
      rw [calc_racks_eq_pure (h a (List.mem_cons_self a t))]
      simp only [okBind]
      rw [hbs]
      simp only [okBind]
      exact ⟨_, rfl, by simp [hmap]⟩

lemma create_layout_ok {cfg : Config}
    (hu : configUnitsOk cfg = true) (hn : ¬ cfg.num_blocks = 0)
    (hbs : ∀ bc ∈ cfg.block_configs, blockCalcOk bc = true) :
    ∃ l, create_warehouse_layout cfg = .ok l ∧
      l.blocks.map (fun b => b.dimensions.width)
        = cfg.block_configs.map (fun _ => blockWidthCm cfg) := by
  unfold configUnitsOk at hu
  rw [Bool.and_eq_true] at hu
  unfold create_warehouse_layout
  dsimp only
  rw [convert_eq_pure hu.1, convert_eq_pure hu.1, convert_eq_pure hu.1,
    convert_eq_pure hu.2]
  simp only [okBind]
  simp only [if_neg hn]
  obtain ⟨bs, hbs2, hmap⟩ := buildBlocks_ok cfg.block_configs 0 hbs
  unfold blockWidthCm availableWidth0 totalGapWidth whWidthCm blockGapCm at *
  rw [hbs2]
  exact ⟨_, rfl, by simpa using hmap⟩

lemma sum_map_constQ (bcs : List BlockConfig) (w : ℚ) :
    (bcs.map (fun _ => w)).sum = (bcs.length : ℚ) * w := by
  induction bcs with
  | nil => simp
  | cons a t ih =>
      simp only [List.map_cons, List.sum_cons, List.length_cons, ih]
      push_cast
      ring

/-- C1, counterexample: at `c1Config` the computed available width is
-200 cm (so each block's slot size would be non-positive), yet
`create_warehouse_layout` does NOT fail: it silently clamps the available
width to 100 cm and returns blocks of width 50 cm.  No
`InsufficientSpaceError` exists in the code. -/
theorem C1_counterexample :
    availableWidth0 c1Config = -200 ∧
    (create_warehouse_layout c1Config).map (fun l => l.blocks.map fun b => b.dimensions.width)
      = .ok [50, 50] := by
  with_unfolding_all decide

/-- C1, amended: when the computed available width is zero or negative, the
layout computation does not fail; it clamps the available width to 100 cm,
so every returned block has width `100 / num_blocks` (warehouse_calc.py
line 36). -/
theorem C1_amended_clamps (cfg : Config)
    (hu : configUnitsOk cfg = true)
    (hn : ¬ cfg.num_blocks = 0)
    (hbs : ∀ bc ∈ cfg.block_configs, blockCalcOk bc = true)
    (hava : availableWidth0 cfg ≤ 0) :
    ∃ l, create_warehouse_layout cfg = .ok l ∧
      ∀ b ∈ l.blocks, b.dimensions.width = 100 / (cfg.num_blocks : ℚ) := by
  obtain ⟨l, hl, hmap⟩ := create_layout_ok hu hn hbs
  refine ⟨l, hl, ?_⟩
  intro b hb
  have hmem : b.dimensions.width ∈ l.blocks.map (fun b => b.dimensions.width) :=
    List.mem_map_of_mem _ hb
  rw [hmap] at hmem
  obtain ⟨bc, _, hw⟩ := List.mem_map.1 hmem
  rw [← hw]
  unfold blockWidthCm
  rw [if_pos hava]

/-- C1, witness for the amended theorem at `c1Config`. -/
theorem C1_amended_clamps_witness :
    ∃ l, create_warehouse_layout c1Config = .ok l ∧
      ∀ b ∈ l.blocks, b.dimensions.width = 100 / (c1Config.num_blocks : ℚ) :=
  C1_amended_clamps c1Config (by with_unfolding_all decide) (by decide)
    (by with_unfolding_all decide) (by with_unfolding_all decide)

/-- C2, counterexample: the spec's own failure example `rows=0,
racks_total=5` does NOT raise: `calculate_racks_for_block` silently returns
an empty rack list (`racks_per_row` becomes 0 and the function returns `[]`
at warehouse_calc.py line 94).  No `MalformedConfigError` exists in the
code, and no structural validation is performed. -/
theorem C2_counterexample :
    c2Block.rack_config.num_rows = 0 ∧ c2Block.rack_config.num_racks = 5 ∧
    calculate_racks_for_block ⟨500, 1000, 400⟩ c2Block = .ok [] := by
  with_unfolding_all decide

/-- C2, amended: with `rows = 0` (any positive `racks_total`), the rack
computation silently returns the empty list instead of raising. -/
theorem C2_amended_silent (d : Dims3) (bc : BlockConfig)
    (hw : rackUnitsOk bc.rack_config = true)
    (hr : bc.rack_config.num_rows = 0) :
    calculate_racks_for_block d bc = .ok [] := by
  have hrpr : racksPerRow bc.rack_config = 0 := by
    unfold racksPerRow
    rw [hr]
    simp
  have hok : blockCalcOk bc = true := by
    unfold blockCalcOk
    rw [hw, hrpr]
    simp
  rw [calc_racks_eq_pure hok]
  unfold calcRacksPure
  rw [if_pos hrpr]

/-- C2, witness for the amended theorem. -/
theorem C2_amended_silent_witness :
    calculate_racks_for_block ⟨800, 900, 300⟩ c2Block = .ok [] :=
  C2_amended_silent ⟨800, 900, 300⟩ c2Block (by with_unfolding_all decide) (by decide)

/-- C5, counterexample: on the spec §8 scenario (3000×2000×800 cm, 2
blocks, 300 cm gap) the code computes block centers x = -575 and x = 575
(with width 850), not the claimed -1075 and 925. -/
theorem C5_counterexample :
    (create_warehouse_layout c5Config).map
        (fun l => l.blocks.map fun b => (b.position.x, b.dimensions.width))
      = .ok [(-575, 850), (575, 850)] ∧
    ¬ ((-575 : ℚ) = -1075) ∧ ¬ ((575 : ℚ) = 925) := by
  with_unfolding_all decide

/-- C5, amended: on the §8 scenario each block has width (2000-300)/2 = 850
cm and the block centers are at x = -575 and x = 575 (from
`start_x = -total_occupied_width/2 + block_width/2`). -/
theorem C5_amended_centers :
    (create_warehouse_layout c5Config).map
        (fun l => l.blocks.map fun b => (b.position.x, b.dimensions.width))
      = .ok [(-575, 850), (575, 850)] := by
  with_unfolding_all decide

/-- C7, counterexample: the engine's table has NO entry for `mm`, so
`convert_to_centimeters` raises `ValueError` on `mm` instead of mapping it
to value × 0.1 as the claim's table requires. -/
theorem C7_counterexample :
    convert_to_centimeters 1 "mm" = .error (.valueError "mm") ∧
    ¬ convert_to_centimeters 1 "mm" = .ok (1/10) := by
  with_unfolding_all decide

/-- C7, amended: the engine's table is {cm=1, m=100, km=100000, in=2.54,
ft=30.48, yd=91.44, mi=160934.4} — with no `mm` entry — and every unit
string outside that table (including `mm`) fails with `ValueError` rather
than falling back to a factor of 1.0.  (The frontend helper `to_cm` is the
call site that instead falls back to the raw value.) -/
theorem C7_amended_table (v : ℚ) :
    convert_to_centimeters v "cm" = .ok v ∧
    convert_to_centimeters v "m" = .ok (v * 100) ∧
    convert_to_centimeters v "km" = .ok (v * 100000) ∧
    convert_to_centimeters v "in" = .ok (v * (254/100)) ∧
    convert_to_centimeters v "ft" = .ok (v * (3048/100)) ∧
    convert_to_centimeters v "yd" = .ok (v * (9144/100)) ∧
    convert_to_centimeters v "mi" = .ok (v * (1609344/10)) ∧
    ∀ u, conversion_factors u = none →
      convert_to_centimeters v u = .error (.valueError u) := by
  refine ⟨by simp [convert_to_centimeters, conversion_factors], rfl, rfl, rfl, rfl, rfl, rfl, ?_⟩
  intro u hu
  unfold convert_to_centimeters
  rw [hu]

/-- C7, witness for the amended theorem (the unknown-unit clause at
`furlong`). -/
theorem C7_amended_table_witness :
    convert_to_centimeters 3 "cm" = .ok 3 ∧
    convert_to_centimeters 3 "furlong" = .error (.valueError "furlong") :=
  ⟨(C7_amended_table 3).1, (C7_amended_table 3).2.2.2.2.2.2.2 "furlong" rfl⟩

/-- C8, counterexample: the claimed round trip fails at v = 1:
`convert(convert(1, "m") / 100, "m")` is 100 cm, not 1. -/
theorem C8_counterexample :
    convert_to_centimeters 1 "m" = .ok 100 ∧
    convert_to_centimeters ((100 : ℚ) / 100) "m" = .ok 100 ∧
    ¬ (Except.ok (100 : ℚ) : Except CalcErr ℚ) = .ok 1 := by
  with_unfolding_all decide

/-- C8, amended: `convert(convert(v, "m") / 100, "m")` returns
`convert(v, "m")` itself (that is, 100·v — the round trip reproduces the
centimeter value, not the original meter value v), and
`convert(v, "cm") = v` does hold identically. -/
theorem C8_amended_roundtrip (v x : ℚ)
    (h : convert_to_centimeters v "m" = .ok x) :
    convert_to_centimeters (x / 100) "m" = .ok x ∧
    convert_to_centimeters v "cm" = .ok v := by
  have hx : x = v * 100 := by
    have h2 : convert_to_centimeters v "m" = .ok (v * 100) := rfl
    rw [h2] at h
    exact (Except.ok.inj h).symm
  constructor
  · show Except.ok (x / 100 * 100) = .ok x
    rw [hx]
    norm_num
  · show Except.ok (v * 1) = .ok v
    rw [mul_one]

/-- C8, witness for the amended theorem at v = 7. -/
theorem C8_amended_roundtrip_witness :
    convert_to_centimeters ((700 : ℚ) / 100) "m" = .ok 700 ∧
    convert_to_centimeters 7 "cm" = .ok 7 :=
  C8_amended_roundtrip 7 700 (by with_unfolding_all decide)

/-- C9, counterexample: on `c9Config` (a block with `num_floors = 0`) the
engine raises `ZeroDivisionError`; `create_warehouse` catches it (HTTP 400),
but `validate_config` catches only `ValueError`, so the error PROPAGATES out
of the validate endpoint instead of being reported as valid:false. -/
theorem C9_counterexample :
    validate_config c9Config = .error .zeroDivision ∧
    create_warehouse c9Config = .httpError 400 "division by zero" := by
  with_unfolding_all decide

/-- C9, amended: `validate_config` is a dry run of the same
`create_warehouse_layout` code path; it returns valid:true exactly when the
computation succeeds and maps `ValueError` (the engine's only typed error,
for unknown units) to valid:false with the error message — but it
propagates `ZeroDivisionError` instead of catching it, and the error kinds
`InsufficientSpaceError`/`MalformedConfigError` do not exist in the code. -/
theorem C9_amended_dry_run (cfg : Config) :
    (validate_config cfg = .ok { valid := true, message := "Configuration looks good!" }
      ↔ ∃ l, create_warehouse_layout cfg = .ok l) ∧
    (∀ u, create_warehouse_layout cfg = .error (.valueError u) →
      validate_config cfg = .ok { valid := false, message := "Unsupported unit: " ++ u }) ∧
    (create_warehouse_layout cfg = .error .zeroDivision →
      validate_config cfg = .error .zeroDivision) := by
  unfold validate_config
  cases h : create_warehouse_layout cfg with
  | ok l =>
      refine ⟨⟨fun _ => ⟨l, rfl⟩, fun _ => rfl⟩, fun u hu => absurd hu (by simp),
        fun hz => absurd hz (by simp)⟩
  | error e =>
      cases e with
      | valueError u =>
          refine ⟨⟨fun hc => ?_, fun hex => ?_⟩, fun u2 hu2 => ?_, fun hz => ?_⟩
          · exact absurd hc (by simp [errorMessage])
          · obtain ⟨l2, hl2⟩ := hex
            exact absurd hl2 (by simp)
          · have hequ : u = u2 := CalcErr.valueError.inj (Except.error.inj hu2)
            rw [← hequ]
            rfl
          · exact absurd hz (by simp)
      | zeroDivision =>
          refine ⟨⟨fun hc => ?_, fun hex => ?_⟩, fun u2 hu2 => ?_, fun _ => rfl⟩
          · exact absurd hc (by simp)
          · obtain ⟨l2, hl2⟩ := hex
            exact absurd hl2 (by simp)
          · exact absurd hu2 (by simp)

/-- C9, witness for the amended theorem: the `ZeroDivisionError`
propagation clause at `c9zConfig` (`num_blocks = 0`). -/
theorem C9_amended_dry_run_witness :
    validate_config c9zConfig = .error .zeroDivision :=
  (C9_amended_dry_run c9zConfig).2.2 (by with_unfolding_all decide)

/-- C4, confirmed: for a valid configuration (matching block count, known
units, positive available width so no clamping, and per-block success
conditions) the sum of the output block widths plus the `num_blocks - 1`
inter-block gaps equals the warehouse width exactly, hence within the
1e-6 cm tolerance. -/
theorem C4_tiling (cfg : Config)
    (hu : configUnitsOk cfg = true)
    (hn : ¬ cfg.num_blocks = 0)
    (hlen : cfg.block_configs.length = cfg.num_blocks)
    (hbs : ∀ bc ∈ cfg.block_configs, blockCalcOk bc = true)
    (hava : 0 < availableWidth0 cfg) :
    ∃ l, create_warehouse_layout cfg = .ok l ∧
      |(l.blocks.map (fun b => b.dimensions.width)).sum
        + blockGapCm cfg * ((cfg.num_blocks : ℚ) - 1) - whWidthCm cfg| ≤ 1 / 1000000 := by
  obtain ⟨l, hl, hmap⟩ := create_layout_ok hu hn hbs
  refine ⟨l, hl, ?_⟩
  rw [hmap, sum_map_constQ, hlen]
  have hbw : (cfg.num_blocks : ℚ) * blockWidthCm cfg = availableWidth0 cfg := by
    unfold blockWidthCm
    rw [if_neg (not_le.2 hava)]
    have hnq : (cfg.num_blocks : ℚ) ≠ 0 := by
      simpa using hn
    field_simp
  rw [hbw]
  have hgap : availableWidth0 cfg + blockGapCm cfg * ((cfg.num_blocks : ℚ) - 1)
      = whWidthCm cfg := by
    unfold availableWidth0 totalGapWidth
    by_cases h1 : 1 < cfg.num_blocks
    · rw [if_pos h1]
      ring
    · have h2 : cfg.num_blocks = 1 := by omega
      rw [if_neg h1, h2]
      norm_num
  rw [sub_eq_zero_of_eq hgap, abs_zero]
  norm_num

/-- C4, witness at the §8 example configuration. -/
theorem C4_tiling_witness :
    ∃ l, create_warehouse_layout c5Config = .ok l ∧
      |(l.blocks.map (fun b => b.dimensions.width)).sum
        + blockGapCm c5Config * ((c5Config.num_blocks : ℚ) - 1) - whWidthCm c5Config|
        ≤ 1 / 1000000 :=
  C4_tiling c5Config (by with_unfolding_all decide) (by decide) (by decide)
    (by with_unfolding_all decide) (by with_unfolding_all decide)

/-- C10, confirmed: in every successfully computed block, the rack stack
occupies exactly 80% of the block height: `floors × floor_h = 0.8 × height`,
every rack-floor entry has the uniform height `0.8 × height / floors`, its
center sits at `f × floor_h + floor_h / 2` for its 0-based floor `f`, and
the top of every entry stays at or below `0.8 × height` (the remaining 20%
is empty). -/
theorem C10_floor_stack (d : Dims3) (bc : BlockConfig)
    (hok : blockCalcOk bc = true)
    (hfl : ¬ bc.rack_config.num_floors = 0)
    (hH : 0 ≤ d.height) :
    ∃ rs, calculate_racks_for_block d bc = .ok rs ∧
      (bc.rack_config.num_floors : ℚ)
          * (d.height * (4/5) / (bc.rack_config.num_floors : ℚ)) = d.height * (4/5) ∧
      ∀ e ∈ rs,
        e.dimensions.height = d.height * (4/5) / (bc.rack_config.num_floors : ℚ) ∧
        (∃ f, f < bc.rack_config.num_floors ∧ e.floor = f + 1 ∧
          e.position.y = (f : ℚ) * (d.height * (4/5) / (bc.rack_config.num_floors : ℚ))
            + (d.height * (4/5) / (bc.rack_config.num_floors : ℚ)) / 2) ∧
        e.position.y + e.dimensions.height / 2 ≤ d.height * (4/5) := by
  rw [calc_racks_eq_pure hok]
  have hnq : (bc.rack_config.num_floors : ℚ) ≠ 0 := by simpa using hfl
  refine ⟨_, rfl, by field_simp; ring, ?_⟩
  intro e he
  unfold calcRacksPure at he
  by_cases hrpr : racksPerRow bc.rack_config = 0
  · rw [if_pos hrpr] at he
    simp at he
  · rw [if_neg hrpr] at he
    obtain ⟨i, k, f, hi, hk, hd⟩ := mem_rowLoopPure he
    obtain ⟨hfe, hfloor, hrow, hcol, hpal, hdims, hy⟩ := hd
    have hEf : (calcEnv d bc).num_floors = bc.rack_config.num_floors := rfl
    have hEh : (calcEnv d bc).floor_h
        = d.height * (4/5) / (bc.rack_config.num_floors : ℚ) := rfl
    have hdh : e.dimensions.height = d.height * (4/5) / (bc.rack_config.num_floors : ℚ) := by
      rw [hdims]
      exact hEh
    have hyv : e.position.y = (f : ℚ) * (d.height * (4/5) / (bc.rack_config.num_floors : ℚ))
        + (d.height * (4/5) / (bc.rack_config.num_floors : ℚ)) / 2 := by
      rw [hy, hEh]
    refine ⟨hdh, ⟨f, by rw [← hEf]; exact hfe, hfloor, hyv⟩, ?_⟩
    rw [hyv, hdh]
    have hfh0 : 0 ≤ d.height * (4/5) / (bc.rack_config.num_floors : ℚ) := by
      apply div_nonneg (by linarith)
      positivity
    have hf1 : (f : ℚ) + 1 ≤ (bc.rack_config.num_floors : ℚ) := by
      have := hfe
      rw [hEf] at this
      exact_mod_cast Nat.succ_le_of_lt this
    have hstep : (f : ℚ) * (d.height * (4/5) / (bc.rack_config.num_floors : ℚ))
        + (d.height * (4/5) / (bc.rack_config.num_floors : ℚ)) / 2
        + (d.height * (4/5) / (bc.rack_config.num_floors : ℚ)) / 2
        = ((f : ℚ) + 1) * (d.height * (4/5) / (bc.rack_config.num_floors : ℚ)) := by
      ring
    rw [hstep]
    calc ((f : ℚ) + 1) * (d.height * (4/5) / (bc.rack_config.num_floors : ℚ))
        ≤ (bc.rack_config.num_floors : ℚ)
            * (d.height * (4/5) / (bc.rack_config.num_floors : ℚ)) :=
          mul_le_mul_of_nonneg_right hf1 hfh0
      _ = d.height * (4/5) := by field_simp; ring

/-- C10, witness: a 600×800×500 block with the 2-floor grid of `c6Block`. -/
theorem C10_floor_stack_witness :
    ∃ rs, calculate_racks_for_block ⟨600, 800, 500⟩ c6Block = .ok rs ∧
      (c6Block.rack_config.num_floors : ℚ)
          * ((500 : ℚ) * (4/5) / (c6Block.rack_config.num_floors : ℚ)) = (500 : ℚ) * (4/5) ∧
      ∀ e ∈ rs,
        e.dimensions.height = (500 : ℚ) * (4/5) / (c6Block.rack_config.num_floors : ℚ) ∧
        (∃ f, f < c6Block.rack_config.num_floors ∧ e.floor = f + 1 ∧
          e.position.y = (f : ℚ) * ((500 : ℚ) * (4/5) / (c6Block.rack_config.num_floors : ℚ))
            + ((500 : ℚ) * (4/5) / (c6Block.rack_config.num_floors : ℚ)) / 2) ∧
        e.position.y + e.dimensions.height / 2 ≤ (500 : ℚ) * (4/5) :=
  C10_floor_stack ⟨600, 800, 500⟩ c6Block (by with_unfolding_all decide) (by decide)
    (by with_unfolding_all decide)

lemma matchPos_iff {q : PalletConfig} {F R C : Nat} :
    matchPos q F R C = true ↔
      q.position.floor = (F : Int) ∧ q.position.row = (R : Int) ∧
        q.position.col = (C : Int) := by
  unfold matchPos
  simp [Bool.and_eq_true, beq_iff_eq, and_assoc]

/-- C6, confirmed: a pallet declared at 1-based position (floor, row, col)
inside the block's rack grid (the cell exists: indices are ≥ 1, within
floors/rows/racks-per-row, and the cell's row-major rank is below
racks_total) is attached to exactly the rack-floor entry carrying those
indices: such an entry exists, an entry holds the pallet iff its indices
are exactly (floor, row, col), and distinct entries never share an index
triple. -/
theorem C6_pallet_attachment (d : Dims3) (bc : BlockConfig) (p : PalletConfig)
    (f r c : Nat)
    (hok : blockCalcOk bc = true)
    (hmem : p ∈ bc.pallet_configs)
    (hpos : p.position = { floor := (f : Int), row := (r : Int), col := (c : Int) })
    (hf1 : 1 ≤ f) (hf2 : f ≤ bc.rack_config.num_floors)
    (hr1 : 1 ≤ r) (hr2 : r ≤ bc.rack_config.num_rows)
    (hc1 : 1 ≤ c) (hc2 : c ≤ racksPerRow bc.rack_config)
    (hgrid : (r - 1) * racksPerRow bc.rack_config + (c - 1) < bc.rack_config.num_racks) :
    ∃ rs, calculate_racks_for_block d bc = .ok rs ∧
      (∃ e ∈ rs, e.floor = f ∧ e.row = r ∧ e.column = c) ∧
      (∀ e ∈ rs, palletDataPure p ∈ e.pallets ↔ (e.floor = f ∧ e.row = r ∧ e.column = c)) ∧
      rs.Pairwise DistinctIdx := by
  rw [calc_racks_eq_pure hok]
  have hrpr : ¬ racksPerRow bc.rack_config = 0 := by omega
  have hcr : calcRacksPure d bc = rowLoopPure (calcEnv d bc) bc.rack_config.num_rows 0 0 := by
    unfold calcRacksPure
    rw [if_neg hrpr]
  have hErpr : (calcEnv d bc).racks_per_row = racksPerRow bc.rack_config := rfl
  have hEf : (calcEnv d bc).num_floors = bc.rack_config.num_floors := rfl
  have hEt : (calcEnv d bc).num_racks_total = bc.rack_config.num_racks := rfl
  have hpf : p.position.floor = (f : Int) := by rw [hpos]
  have hprw : p.position.row = (r : Int) := by rw [hpos]
  have hpc : p.position.col = (c : Int) := by rw [hpos]
  refine ⟨_, rfl, ?_, ?_, ?_⟩
  · rw [hcr]
    have h1 : r - 1 < bc.rack_config.num_rows := by omega
    have h2 : c - 1 < (calcEnv d bc).racks_per_row := by rw [hErpr]; omega
    have h3 : f - 1 < (calcEnv d bc).num_floors := by rw [hEf]; omega
    have h4 : 0 + (r - 1) * (calcEnv d bc).racks_per_row + (c - 1)
        < (calcEnv d bc).num_racks_total := by
      rw [hErpr, hEt]
      omega
    obtain ⟨e, he, hef, her, hec⟩ := @rowLoopPure_exists (calcEnv d bc)
      bc.rack_config.num_rows 0 0 (r - 1) (c - 1) (f - 1) h1 h2 h3 h4
    exact ⟨e, he, by omega, by omega, by omega⟩
  · intro e he
    rw [hcr] at he
    obtain ⟨i, k, f2, hi, hk, hd⟩ := mem_rowLoopPure he
    obtain ⟨hf2lt, hfloor, hrow, hcol, hpal, _, _⟩ := hd
    constructor
    · intro hpd
      rw [hpal] at hpd
      unfold palletsAtD at hpd
      obtain ⟨q, hqf, hqe⟩ := List.mem_map.1 hpd
      have hqpos : q.position = p.position := congrArg PalletData.position hqe
      obtain ⟨hq1, hq2⟩ := List.mem_filter.1 hqf
      rw [matchPos_iff] at hq2
      obtain ⟨ha, hb, hcc⟩ := hq2
      rw [hqpos] at ha hb hcc
      rw [hpf] at ha
      rw [hprw] at hb
      rw [hpc] at hcc
      have haf : f = f2 + 1 := by exact_mod_cast ha
      have hbr : r = 0 + i + 1 := by exact_mod_cast hb
      have hcn : c = k + 1 := by exact_mod_cast hcc
      exact ⟨by omega, by omega, by omega⟩
    · intro hidx
      obtain ⟨hif, hir, hic⟩ := hidx
      rw [hpal]
      unfold palletsAtD
      apply List.mem_map_of_mem
      apply List.mem_filter.2
      refine ⟨hmem, ?_⟩
      rw [matchPos_iff, hpf, hprw, hpc]
      refine ⟨?_, ?_, ?_⟩
      · exact_mod_cast show f = f2 + 1 by omega
      · exact_mod_cast show r = 0 + i + 1 by omega
      · exact_mod_cast show c = k + 1 by omega
  · rw [hcr]
    exact pairwise_rowLoopPure

/-- C6, witness: in `c6Block` (2 floors × 2 rows × 2 columns, one pallet at
(2, 1, 2)) the pallet lands exactly on the entry with indices (2, 1, 2). -/
theorem C6_pallet_attachment_witness :
    ∃ rs, calculate_racks_for_block ⟨600, 800, 500⟩ c6Block = .ok rs ∧
      (∃ e ∈ rs, e.floor = 2 ∧ e.row = 1 ∧ e.column = 2) ∧
      (∀ e ∈ rs, palletDataPure c6Pallet ∈ e.pallets ↔ (e.floor = 2 ∧ e.row = 1 ∧ e.column = 2)) ∧
      rs.Pairwise DistinctIdx :=
  C6_pallet_attachment ⟨600, 800, 500⟩ c6Block c6Pallet 2 1 2
    (by with_unfolding_all decide) (by decide) (by decide) (by decide) (by decide)
    (by decide) (by decide) (by decide) (by decide) (by decide)

/-- C3, counterexample: on the §8 scenario block (rows=2, racks_total=4,
custom_gaps=[20] cm) with available width 500 cm, row 1's racks sit at
x = -130 and x = 130 (edge gap 130 - (-130) - 240 = 20 cm), but row 2's
racks sit at x = -130 and x = 110: their center distance is 240 = the rack
width, i.e. a zero gap — not the 20 cm the claim asserts for BOTH rows.
The global gap counter has already consumed the single custom gap in row 1
(warehouse_calc.py line 132). -/
theorem C3_counterexample :
    (calculate_racks_for_block ⟨500, 1000, 400⟩ c3Block).map
        (fun rs => rs.map fun e => ((e.row, e.column), e.position.x, e.dimensions.width))
      = .ok [((1, 1), -130, 240), ((1, 2), 130, 240), ((2, 1), -130, 240), ((2, 2), 110, 240)] ∧
    ¬ ((110 : ℚ) - (-130) = 240 + 20) := by
  with_unfolding_all decide

/-- C3, amended: rack width is (available_width - 20)/2 in both rows, and
row 1's two racks are separated by the 20 cm custom gap (center distance
rack_width + 20), but row 2's two racks touch (center distance exactly
rack_width, zero gap), because the custom-gap list is indexed by the
running global rack counter and is exhausted after row 1. -/
theorem C3_amended_gaps (W L H : ℚ) (h : ¬ (W - 20) / 2 < 10) :
    ∃ rs, calculate_racks_for_block ⟨W, L, H⟩ c3Block = .ok rs ∧
      rs.map (fun e => ((e.row, e.column), e.position.x)) =
        [((1, 1), -W/2 + (W-20)/4),
         ((1, 2), -W/2 + (W-20)/4 + ((W-20)/2 + 20)),
         ((2, 1), -W/2 + (W-20)/4),
         ((2, 2), -W/2 + (W-20)/4 + (W-20)/2)] ∧
      ∀ e ∈ rs, e.dimensions.width = (W - 20) / 2 := by
  have hok : blockCalcOk c3Block = true := by decide
  rw [calc_racks_eq_pure hok]
  have hE : calcEnv ⟨W, L, H⟩ c3Block =
      { custom_gaps := [20], num_floors := 1, num_racks_total := 4, racks_per_row := 2,
        rack_w := (W - 20) / 2, rack_l := (L - 150) / 2, floor_h := H * (4/5),
        block_w := W, block_l := L, gap_l := 0, gap_f := 0, pallets := [] } := by
    unfold calcEnv c3Block
    norm_num [convPure, conversion_factors, racksPerRow, maxRowGapSum, rowGapSum,
      List.range_succ]
    exact fun hlt => absurd hlt h
  have hrpr : ¬ racksPerRow c3Block.rack_config = 0 := by decide
  have hcr : calcRacksPure ⟨W, L, H⟩ c3Block
      = rowLoopPure (calcEnv ⟨W, L, H⟩ c3Block) 2 0 0 := by
    unfold calcRacksPure
    rw [if_neg hrpr]
    rfl
  rw [hcr, hE]
  refine ⟨_, rfl, ?_, ?_⟩
  · norm_num [rowLoopPure, colLoopPure, floorsForPure, palletsAtD, List.range_succ,
      rackFloorId]
    refine ⟨by ring, by ring, by ring, by ring⟩
  · intro e he
    norm_num [rowLoopPure, colLoopPure, floorsForPure, palletsAtD, List.range_succ] at he
    rcases he with rfl | rfl | rfl | rfl <;> rfl

/-- C3, witness for the amended theorem at available width 500 cm. -/
theorem C3_amended_gaps_witness :
    ∃ rs, calculate_racks_for_block ⟨500, 1000, 400⟩ c3Block = .ok rs ∧
      rs.map (fun e => ((e.row, e.column), e.position.x)) =
        [((1, 1), -(500 : ℚ)/2 + (500-20)/4),
         ((1, 2), -(500 : ℚ)/2 + (500-20)/4 + ((500-20)/2 + 20)),
         ((2, 1), -(500 : ℚ)/2 + (500-20)/4),
         ((2, 2), -(500 : ℚ)/2 + (500-20)/4 + (500-20)/2)] ∧
      ∀ e ∈ rs, e.dimensions.width = (500 - 20) / 2 :=
  C3_amended_gaps 500 1000 400 (by with_unfolding_all decide)

end Warehouse
